import Mathlib

/-!
Verification of the session manager and streaming gateway of
databricks-app-terminal, shallowly embedded from
src/sessions/ptySessionManager.ts and src/ws/terminalGateway.ts.

The manager is single-threaded and event-driven; each public method is
embedded as a pure function from a manager state to a result, a new state
and the list of client-callback events it fires synchronously.  `await`
suspension points inside `createSession` are made explicit by splitting it
into the phases the JavaScript event loop can interleave.
-/

deriving instance DecidableEq for Except

namespace DbxTerminal

/-- Auth mode of a session: machine-to-machine or user-delegated
(`SessionAuthMode` in src/sessions/types.ts). -/
inductive AuthMode where
  | m2m
  | user
deriving DecidableEq, Repr

/-- `AppError` from src/api/types.ts: HTTP status, stable error code and a
retryable flag (the message and details are irrelevant to control flow). -/
structure AppError where
  status : Nat
  code : String
  retryable : Bool
deriving DecidableEq, Repr

/-- JavaScript truthiness of a `string | undefined` value: `undefined` and
the empty string are falsy.  Used to embed `a || b` chains over strings. -/
def truthy : Option String → Bool
  | none => false
  | some s => !(s == "")

/-- Embeds the JavaScript `a || b` idiom on `string | undefined` values. -/
def jsOr (a b : Option String) : Option String :=
  if truthy a then a else b

/-- JavaScript truthiness of a `number | undefined`: `undefined` and `0`
are falsy (`input.cols || this.defaultCols`). -/
def numTruthy : Option Int → Bool
  | none => false
  | some n => !(n == 0)

/-- Embeds `a || b` on `number | undefined` values. -/
def jsOrNum (a : Option Int) (b : Int) : Int :=
  match a with
  | none => b
  | some n => if n == 0 then b else n

/-- `clamp` from src/sessions/ptySessionManager.ts:
`Math.min(max, Math.max(min, value))`. -/
def clamp (value min' max' : Int) : Int :=
  min max' (max min' value)

/-- Hex-digit test used by the session-id pattern (case-insensitive). -/
def isHexDigit (c : Char) : Bool :=
  c.isDigit || (('a' ≤ c && c ≤ 'f') || ('A' ≤ c && c ≤ 'F'))

/-- `SESSION_ID_PATTERN`: a 36-character UUID string with dashes at
positions 8, 13, 18, 23, version nibble `7` at position 14 and variant
nibble in `[89ab]` (case-insensitive) at position 19; every other
character a hex digit. -/
def validSessionId (s : String) : Bool :=
  let cs := s.data
  cs.length == 36 &&
  (List.range 36).all (fun i =>
    let c := cs.getD i ' '
    if i == 8 || i == 13 || i == 18 || i == 23 then c == '-'
    else if i == 14 then c == '7'
    else if i == 19 then
      c == '8' || c == '9' || c == 'a' || c == 'b' || c == 'A' || c == 'B'
    else isHexDigit c)

/-- The error thrown by `assertValidSessionId`. -/
def invalidSessionIdError : AppError :=
  { status := 400, code := "INVALID_SESSION_ID", retryable := false }

/-- The error thrown by `getSession` / `ensureSessionExists` for an absent
session. -/
def sessionNotFoundError : AppError :=
  { status := 404, code := "SESSION_NOT_FOUND", retryable := false }

/-- The subset of a process environment the auth logic reads and writes
(`mergedEnv` keys touched by `applyAuthModeToEnv`); `none` means the
variable is unset. -/
structure Env where
  authType : Option String
  host : Option String
  token : Option String
  clientId : Option String
  clientSecret : Option String
  dbxAuthMode : Option String
  dbxTokenHeader : Option String
deriving DecidableEq, Repr

/-- `SessionAuthState` from src/sessions/ptySessionManager.ts. -/
structure SessionAuthState where
  mode : AuthMode
  userAccessToken : Option String
  databricksHost : Option String
  userAccessTokenHeader : Option String
  originalDatabricksHost : Option String
  originalDatabricksClientId : Option String
  originalDatabricksClientSecret : Option String
  stateFilePath : String
deriving DecidableEq, Repr

/-- `applyAuthModeToEnv` from src/sessions/ptySessionManager.ts, as a pure
function on the embedded environment. -/
def applyAuthModeToEnv (env : Env) (state : SessionAuthState) : Env :=
  let env := { env with
    dbxAuthMode := some (if state.mode = AuthMode.user then "user" else "m2m"),
    dbxTokenHeader :=
      some ((jsOr state.userAccessTokenHeader
        (some "x-forwarded-access-token")).getD "x-forwarded-access-token") }
  match state.mode with
  | .user =>
      { env with
        authType := some "pat",
        host := if truthy state.databricksHost then state.databricksHost else none,
        token := if truthy state.userAccessToken then state.userAccessToken else none,
        clientId := none,
        clientSecret := none }
  | .m2m =>
      { env with
        authType := some "oauth-m2m",
        token := none,
        host := state.originalDatabricksHost,
        clientId := state.originalDatabricksClientId,
        clientSecret := state.originalDatabricksClientSecret }

/-- An attached client (`SessionClient`): its identity and whether the
handler set includes the optional auth-mode callback. -/
structure Client where
  id : String
  hasAuthMode : Bool
deriving DecidableEq, Repr

/-- `SessionInfo` from src/sessions/types.ts. -/
structure SessionInfo where
  sessionId : String
  createdAt : Nat
  cwd : String
  cols : Int
  rows : Int
  authMode : AuthMode
  attachedClients : Nat
deriving DecidableEq, Repr

/-- `SessionRecord`: the live mutable record for one session.  The PTY
handle is embedded by its observable effects: the bytes written to it, its
current geometry and whether `kill()` was called. -/
structure SessionRecord where
  info : SessionInfo
  clients : List Client
  history : String
  auth : SessionAuthState
  ptyWritten : List String
  ptyCols : Int
  ptyRows : Int
  ptyKilled : Bool
deriving DecidableEq, Repr

/-- Manager configuration (`InMemoryPtySessionManagerOptions`). -/
structure ManagerOptions where
  maxSessions : Nat
  maxHistoryChars : Nat
  maxInputBytes : Nat
  defaultCols : Int
  defaultRows : Int
  maxCols : Int
  maxRows : Int
  authStateDir : String
deriving DecidableEq, Repr

/-- Whole-manager state: the active-session map (association list in
insertion order, keys unique), the set of auth-state files on disk, the
trace of PTY spawns, the ambient merged environment captured from
`process.env` and `baseEnv`, the process working directory and a clock. -/
structure ManagerState where
  opts : ManagerOptions
  sessions : List (String × SessionRecord)
  files : List String
  spawned : List String
  ambientEnv : Env
  procCwd : String
  now : Nat
deriving DecidableEq, Repr

/-- Association-list lookup (JavaScript `Map.get`). -/
def alistGet {α : Type} : List (String × α) → String → Option α
  | [], _ => none
  | (k, v) :: rest, key => if k == key then some v else alistGet rest key

/-- Association-list insert-or-replace (JavaScript `Map.set`). -/
def alistSet {α : Type} : List (String × α) → String → α → List (String × α)
  | [], key, v => [(key, v)]
  | (k, w) :: rest, key, v =>
      if k == key then (key, v) :: rest else (k, w) :: alistSet rest key v

/-- Association-list removal (JavaScript `Map.delete`). -/
def alistErase {α : Type} : List (String × α) → String → List (String × α)
  | [], _ => []
  | (k, w) :: rest, key =>
      if k == key then rest else (k, w) :: alistErase rest key

/-- Add a path to the set of on-disk files (idempotent: the write
overwrites). -/
def addFile (files : List String) (p : String) : List String :=
  if p ∈ files then files else files ++ [p]

/-- Remove a path from the set of on-disk files (`fs.rm` with force). -/
def removeFile (files : List String) (p : String) : List String :=
  files.filter (fun q => !(q == p))

/-- A synchronous client-callback invocation fired by a manager
operation. -/
inductive Event where
  | data (clientId : String) (payload : String)
  | exit (clientId : String) (exitCode : Int) (signal : Option Int)
  | authMode (clientId : String) (mode : AuthMode)
deriving DecidableEq, Repr

/-- Result of one manager operation: outcome, post-state, and the client
callbacks fired synchronously during the call, in order. -/
structure OpResult (α : Type) where
  res : Except AppError α
  state : ManagerState
  events : List Event
deriving Repr

/-- `getSession`: validates the id shape, then looks it up. -/
def getSession (m : ManagerState) (sessionId : String) :
    Except AppError SessionRecord :=
  if !validSessionId sessionId then .error invalidSessionIdError
  else
    match alistGet m.sessions sessionId with
    | none => .error sessionNotFoundError
    | some r => .ok r

/-- JavaScript `s.slice(-n)`: the last `n` UTF-16 units of `s` (embedded
as characters); `slice(-0)` is `slice(0)`, the whole string. -/
def sliceNeg (s : String) (n : Nat) : String :=
  if n = 0 then s else ⟨s.data.drop (s.data.length - n)⟩

/-- `writeInput`: rejects data whose UTF-8 byte length strictly exceeds
`maxInputBytes` with `INPUT_TOO_LARGE` (HTTP 413, not retryable), else
writes the data unchanged to the PTY. -/
def writeInput (m : ManagerState) (sessionId : String) (data : String) :
    OpResult Unit :=
  match getSession m sessionId with
  | .error e => ⟨.error e, m, []⟩
  | .ok r =>
      let bytes := data.utf8ByteSize
      if bytes > m.opts.maxInputBytes then
        ⟨.error { status := 413, code := "INPUT_TOO_LARGE", retryable := false },
          m, []⟩
      else
        let r := { r with ptyWritten := r.ptyWritten ++ [data] }
        ⟨.ok (), { m with sessions := alistSet m.sessions sessionId r }, []⟩

/-- `resizeSession`: clamps both dimensions into `[20, maxCols]` and
`[10, maxRows]` and applies them to the PTY and the stored info in the
same synchronous step. -/
def resizeSession (m : ManagerState) (sessionId : String) (cols rows : Int) :
    OpResult Unit :=
  match getSession m sessionId with
  | .error e => ⟨.error e, m, []⟩
  | .ok r =>
      let boundedCols := clamp cols 20 m.opts.maxCols
      let boundedRows := clamp rows 10 m.opts.maxRows
      let r := { r with
        ptyCols := boundedCols,
        ptyRows := boundedRows,
        info := { r.info with cols := boundedCols, rows := boundedRows } }
      ⟨.ok (), { m with sessions := alistSet m.sessions sessionId r }, []⟩

/-- `killSession`: kills the PTY, removes the session from the map and
deletes its auth-state file.  It fires no client callbacks itself; the
clients learn of the exit from the PTY exit handler (`ptyExitStep`) once
the killed process actually exits. -/
def killSession (m : ManagerState) (sessionId : String) : OpResult Unit :=
  match getSession m sessionId with
  | .error e => ⟨.error e, m, []⟩
  | .ok r =>
      ⟨.ok (),
        { m with
          sessions := alistErase m.sessions sessionId,
          files := removeFile m.files r.auth.stateFilePath },
        []⟩

/-- The `onData` handler registered in `createSession`: appends to the
history (trimming to the last `maxHistoryChars` characters) and fans the
chunk out to every attached client in registration order. -/
def ptyDataStep (m : ManagerState) (sessionId : String) (data : String) :
    ManagerState × List Event :=
  match alistGet m.sessions sessionId with
  | none => (m, [])
  | some r =>
      let r := { r with
        history := sliceNeg (r.history ++ data) m.opts.maxHistoryChars }
      ({ m with sessions := alistSet m.sessions sessionId r },
        r.clients.map (fun c => Event.data c.id data))

/-- The `onExit` handler registered in `createSession`.  The closure holds
the session record directly, so it notifies the record's clients and
performs teardown even if the session was already removed from the map
(e.g. by `killSession`). -/
def ptyExitStep (m : ManagerState) (record : SessionRecord)
    (sessionId : String) (exitCode : Int) (signal : Option Int) :
    ManagerState × List Event :=
  ({ m with
      sessions := alistErase m.sessions sessionId,
      files := removeFile m.files record.auth.stateFilePath },
    record.clients.map (fun c => Event.exit c.id exitCode signal))

/-- `attachSession`: registers the client, then synchronously replays the
full history once (only when non-empty) to the new client, then delivers
the current auth mode if the handler set has an auth-mode callback. -/
def attachSession (m : ManagerState) (sessionId : String) (client : Client) :
    OpResult Unit :=
  match getSession m sessionId with
  | .error e => ⟨.error e, m, []⟩
  | .ok r =>
      let r := { r with clients := r.clients ++ [client] }
      let replay :=
        if r.history == "" then [] else [Event.data client.id r.history]
      let modeEvt :=
        if client.hasAuthMode then [Event.authMode client.id r.info.authMode]
        else []
      ⟨.ok (), { m with sessions := alistSet m.sessions sessionId r },
        replay ++ modeEvt⟩

/-- The detach closure returned by `attachSession`: removes exactly this
client registration; idempotent. -/
def detachClient (m : ManagerState) (sessionId : String) (clientId : String) :
    ManagerState :=
  match alistGet m.sessions sessionId with
  | none => m
  | some r =>
      let r := { r with clients := r.clients.filter (fun c => !(c.id == clientId)) }
      { m with sessions := alistSet m.sessions sessionId r }

/-- Input to `setSessionAuthMode` (`SetSessionAuthModeInput`). -/
structure SetSessionAuthModeInput where
  mode : AuthMode
  userAccessToken : Option String
  databricksHost : Option String
  userAccessTokenHeader : Option String
deriving DecidableEq, Repr

/-- The error for a user-mode switch with no token available. -/
def userTokenMissingError : AppError :=
  { status := 400, code := "USER_ACCESS_TOKEN_MISSING", retryable := false }

/-- The error for a user-mode switch with no delegated host available.
The source throws it with `retryable = true` (HTTP 500). -/
def databricksHostUnavailableError : AppError :=
  { status := 500, code := "DATABRICKS_HOST_UNAVAILABLE", retryable := true }

/-- `setSessionAuthMode`.  Switching to user mode resolves the token as
(explicit `||` cached) and the host as (explicit `||` stored `||`
original), failing when a chain resolves to nothing truthy.  Switching to
m2m caches any supplied values but only flips the mode.  Then the auth
state is persisted and every client holding an auth-mode callback is
notified. -/
def setSessionAuthMode (m : ManagerState) (sessionId : String)
    (input : SetSessionAuthModeInput) : OpResult SessionInfo :=
  match getSession m sessionId with
  | .error e => ⟨.error e, m, []⟩
  | .ok r =>
      match input.mode with
      | .user =>
          let userAccessToken := jsOr input.userAccessToken r.auth.userAccessToken
          if !truthy userAccessToken then
            ⟨.error userTokenMissingError, m, []⟩
          else
            let databricksHost :=
              jsOr (jsOr input.databricksHost r.auth.databricksHost)
                r.auth.originalDatabricksHost
            if !truthy databricksHost then
              ⟨.error databricksHostUnavailableError, m, []⟩
            else
              let auth := { r.auth with
                mode := AuthMode.user,
                userAccessToken := userAccessToken,
                databricksHost := databricksHost,
                userAccessTokenHeader :=
                  jsOr input.userAccessTokenHeader r.auth.userAccessTokenHeader }
              let r := { r with
                auth := auth,
                info := { r.info with authMode := AuthMode.user } }
              ⟨.ok r.info,
                { m with
                  sessions := alistSet m.sessions sessionId r,
                  files := addFile m.files auth.stateFilePath },
                (r.clients.filter (fun c => c.hasAuthMode)).map
                  (fun c => Event.authMode c.id AuthMode.user)⟩
      | .m2m =>
          let auth := { r.auth with
            userAccessToken :=
              if truthy input.userAccessToken then input.userAccessToken
              else r.auth.userAccessToken,
            databricksHost :=
              if truthy input.databricksHost then input.databricksHost
              else r.auth.databricksHost,
            userAccessTokenHeader :=
              if truthy input.userAccessTokenHeader then input.userAccessTokenHeader
              else r.auth.userAccessTokenHeader,
            mode := AuthMode.m2m }
          let r := { r with
            auth := auth,
            info := { r.info with authMode := AuthMode.m2m } }
          ⟨.ok r.info,
            { m with
              sessions := alistSet m.sessions sessionId r,
              files := addFile m.files auth.stateFilePath },
            (r.clients.filter (fun c => c.hasAuthMode)).map
              (fun c => Event.authMode c.id AuthMode.m2m)⟩

/-- Input to `createSession` (`CreateSessionInput`).  `env` carries the
per-call overrides for the credential variables the auth logic reads;
`none` leaves the ambient value in place (JavaScript spread of
`cleanEnv(input.env)`). -/
structure CreateSessionInput where
  sessionId : String
  cwd : Option String
  cols : Option Int
  rows : Option Int
  authMode : Option AuthMode
  userAccessToken : Option String
  databricksHost : Option String
  userAccessTokenHeader : Option String
  envHost : Option String
  envClientId : Option String
  envClientSecret : Option String
deriving DecidableEq, Repr

/-- Merge of `process.env`, `baseEnv` and the per-call overrides for the
three credential variables (later layers win when the override is a
string). -/
def mergeEnv (ambient : Env) (input : CreateSessionInput) : Env :=
  { ambient with
    host := match input.envHost with | some v => some v | none => ambient.host,
    clientId :=
      match input.envClientId with | some v => some v | none => ambient.clientId,
    clientSecret :=
      match input.envClientSecret with
      | some v => some v
      | none => ambient.clientSecret }

/-- Everything `createSession` has computed when it suspends on
`await this.persistAuthState(auth)`, just before spawning the PTY and
inserting the record into the map. -/
structure PendingCreate where
  sessionId : String
  cwd : String
  cols : Int
  rows : Int
  authMode : AuthMode
  auth : SessionAuthState
  spawnEnv : Env
deriving DecidableEq, Repr

/-- First, synchronous phase of `createSession`: id validation, the
duplicate-id check against the live map, the capacity check, geometry
defaulting and clamping, ambient-credential capture into the auth state,
and the auth-state file write.  Ends at the `await` of
`persistAuthState`. -/
def createPhase1 (m : ManagerState) (input : CreateSessionInput) :
    Except AppError PendingCreate × ManagerState :=
  if !validSessionId input.sessionId then (.error invalidSessionIdError, m)
  else if (alistGet m.sessions input.sessionId).isSome then
    (.error { status := 409, code := "SESSION_EXISTS", retryable := false }, m)
  else if m.sessions.length ≥ m.opts.maxSessions then
    (.error { status := 429, code := "SESSION_LIMIT_REACHED", retryable := true }, m)
  else
    let cols := clamp (jsOrNum input.cols m.opts.defaultCols) 20 m.opts.maxCols
    let rows := clamp (jsOrNum input.rows m.opts.defaultRows) 10 m.opts.maxRows
    let cwd := (jsOr input.cwd (some m.procCwd)).getD m.procCwd
    let mergedEnv := mergeEnv m.ambientEnv input
    let authMode := input.authMode.getD AuthMode.m2m
    let auth : SessionAuthState :=
      { mode := authMode,
        userAccessToken := input.userAccessToken,
        databricksHost := input.databricksHost,
        userAccessTokenHeader := input.userAccessTokenHeader,
        originalDatabricksHost := mergedEnv.host,
        originalDatabricksClientId := mergedEnv.clientId,
        originalDatabricksClientSecret := mergedEnv.clientSecret,
        stateFilePath := m.opts.authStateDir ++ "/" ++ input.sessionId ++ ".env" }
    let spawnEnv := applyAuthModeToEnv mergedEnv auth
    (.ok
      { sessionId := input.sessionId, cwd := cwd, cols := cols, rows := rows,
        authMode := authMode, auth := auth, spawnEnv := spawnEnv },
      { m with files := addFile m.files auth.stateFilePath })

/-- Second phase of `createSession`, after the persist `await` resumes:
the PTY spawn (`spawnOk` is the outcome of the external spawn call) and
— only on success — the insertion of the fully built record into the map.
On spawn failure the persisted auth-state file is rolled back and
`SESSION_SPAWN_FAILED` (HTTP 500, retryable) is raised; the map is never
touched. -/
def createPhase2 (m : ManagerState) (p : PendingCreate) (spawnOk : Bool) :
    Except AppError SessionInfo × ManagerState :=
  if !spawnOk then
    (.error { status := 500, code := "SESSION_SPAWN_FAILED", retryable := true },
      { m with files := removeFile m.files p.auth.stateFilePath })
  else
    let info : SessionInfo :=
      { sessionId := p.sessionId, createdAt := m.now, cwd := p.cwd,
        cols := p.cols, rows := p.rows, authMode := p.authMode,
        attachedClients := 0 }
    let record : SessionRecord :=
      { info := info, clients := [], history := "", auth := p.auth,
        ptyWritten := [], ptyCols := p.cols, ptyRows := p.rows,
        ptyKilled := false }
    (.ok info,
      { m with
        spawned := m.spawned ++ [p.sessionId],
        sessions := alistSet m.sessions p.sessionId record })

/-- `createSession` run without interference: phase 1 immediately followed
by phase 2. -/
def createSession (m : ManagerState) (input : CreateSessionInput)
    (spawnOk : Bool) : Except AppError SessionInfo × ManagerState :=
  match createPhase1 m input with
  | (.error e, m1) => (.error e, m1)
  | (.ok p, m1) => createPhase2 m1 p spawnOk

/-- WebSocket ready states relevant to `send` (only OPEN sockets accept
frames; `close()` moves the socket to CLOSING at once). -/
inductive WsReadyState where
  | connecting
  | open
  | closing
  | closed
deriving DecidableEq, Repr

/-- The observable state of one gateway socket: its ready state, the
outbound buffered byte count reported by the transport, the frames
enqueued so far and the close code/reason if the gateway closed it. -/
structure WsState where
  readyState : WsReadyState
  bufferedAmount : Nat
  sentFrames : List String
  closeCode : Option (Nat × String)
deriving DecidableEq, Repr

/-- `send` from src/ws/terminalGateway.ts: drops the frame silently on a
non-OPEN socket; on an OPEN socket whose buffered bytes strictly exceed
the backpressure threshold it closes with code 1009 / "client-too-slow"
without enqueuing; otherwise it enqueues the serialized frame. -/
def wsSend (ws : WsState) (payload : String) (wsBackpressureBytes : Nat) :
    WsState :=
  if ws.readyState ≠ WsReadyState.open then ws
  else if ws.bufferedAmount > wsBackpressureBytes then
    { ws with
      readyState := WsReadyState.closing,
      closeCode := some (1009, "client-too-slow") }
  else
    { ws with sentFrames := ws.sentFrames ++ [payload] }

/-- A data event addressed to a given client id. -/
def isDataFor (cid : String) : Event → Bool
  | .data c _ => c == cid
  | _ => false

/-- A concrete valid UUIDv7-shaped session id. -/
def sid : String := "0190a000-0000-7000-8000-000000000000"

/-- Concrete manager configuration used by the concrete witnesses. -/
def defaultOpts : ManagerOptions :=
  { maxSessions := 8, maxHistoryChars := 100, maxInputBytes := 4,
    defaultCols := 120, defaultRows := 30, maxCols := 400, maxRows := 200,
    authStateDir := "/tmp/auth" }

/-- Concrete ambient environment with machine credentials set. -/
def ambient1 : Env :=
  { authType := none, host := some "https://orig.example", token := none,
    clientId := some "orig-client", clientSecret := some "orig-secret",
    dbxAuthMode := none, dbxTokenHeader := none }

/-- Concrete empty manager state. -/
def baseState : ManagerState :=
  { opts := defaultOpts, sessions := [], files := [], spawned := [],
    ambientEnv := ambient1, procCwd := "/app", now := 1000 }

/-- Concrete auth state for a machine-mode session created under
`ambient1`, with no delegated host available anywhere. -/
def auth1 : SessionAuthState :=
  { mode := AuthMode.m2m, userAccessToken := none, databricksHost := none,
    userAccessTokenHeader := none,
    originalDatabricksHost := some "https://orig.example",
    originalDatabricksClientId := some "orig-client",
    originalDatabricksClientSecret := some "orig-secret",
    stateFilePath := "/tmp/auth/" ++ sid ++ ".env" }

/-- `auth1` with the captured original host also absent. -/
def authNoHost : SessionAuthState :=
  { auth1 with originalDatabricksHost := none }

/-- Concrete session record. -/
def record1 : SessionRecord :=
  { info :=
      { sessionId := sid, createdAt := 1000, cwd := "/app", cols := 120,
        rows := 30, authMode := AuthMode.m2m, attachedClients := 0 },
    clients := [], history := "", auth := auth1, ptyWritten := [],
    ptyCols := 120, ptyRows := 30, ptyKilled := false }

/-- Concrete attached client without an auth-mode callback. -/
def clientA : Client := { id := "client-a", hasAuthMode := false }

/-- Concrete attached client with an auth-mode callback. -/
def clientB : Client := { id := "client-b", hasAuthMode := true }

/-- Concrete manager state with one active session. -/
def oneSessionState : ManagerState :=
  { baseState with
    sessions := [(sid, record1)],
    files := [auth1.stateFilePath] }

/-- Concrete state whose one session has no delegated host available from
any of the three sources, and one attached client. -/
def noHostState : ManagerState :=
  { baseState with
    sessions := [(sid, { record1 with auth := authNoHost, clients := [clientA] })],
    files := [auth1.stateFilePath] }

/-- `createSession` input supplying only the session id (everything else
absent), as the HTTP layer does for a bare create call. -/
def bareInput : CreateSessionInput :=
  { sessionId := sid, cwd := none, cols := none, rows := none,
    authMode := none, userAccessToken := none, databricksHost := none,
    userAccessTokenHeader := none, envHost := none, envClientId := none,
    envClientSecret := none }

/-- The interleaving the event loop can produce for two `createSession`
calls with the same id: A runs phase 1 and suspends on the persist
`await`; B runs phase 1 and suspends; A resumes and completes; B resumes
and completes.  Returns whether each call passed the duplicate-id check
and the final PTY spawn trace. -/
def raceInterleaving : Bool × Bool × List String :=
  match createPhase1 baseState bareInput with
  | (.error _, _) => (false, false, [])
  | (.ok pA, m1) =>
      match createPhase1 m1 bareInput with
      | (.error _, _) => (true, false, [])
      | (.ok pB, m2) =>
          let r3 := createPhase2 m2 pA true
          let r4 := createPhase2 r3.2 pB true
          (true, true, r4.2.spawned)

/-- The auth-mode round trip of the spec: switch to user mode with an
explicit token and host, switch back to m2m with no arguments, then
switch to user mode again with no arguments.  Returns the three call
results. -/
def authRoundTrip (m : ManagerState) (sessionId : String)
    (tok host2 : String) :
    OpResult SessionInfo × OpResult SessionInfo × OpResult SessionInfo :=
  let s1 := setSessionAuthMode m sessionId
    { mode := AuthMode.user, userAccessToken := some tok,
      databricksHost := some host2, userAccessTokenHeader := none }
  let s2 := setSessionAuthMode s1.state sessionId
    { mode := AuthMode.m2m, userAccessToken := none, databricksHost := none,
      userAccessTokenHeader := none }
  let s3 := setSessionAuthMode s2.state sessionId
    { mode := AuthMode.user, userAccessToken := none, databricksHost := none,
      userAccessTokenHeader := none }
  (s1, s2, s3)

/-- The history-replay scenario of the spec: attach client A, let the PTY
produce D, detach A, attach client B, let the PTY produce E.  Returns B's
attach call (whose events contain the replay) and the final PTY data
step (whose events are the live fan-out of E). -/
def replayScenario (m : ManagerState) (sessionId : String) (cA cB : Client)
    (D E : String) : OpResult Unit × (ManagerState × List Event) :=
  let st1 := (attachSession m sessionId cA).state
  let pd := ptyDataStep st1 sessionId D
  let st3 := detachClient pd.1 sessionId cA.id
  let at2 := attachSession st3 sessionId cB
  let pd2 := ptyDataStep at2.state sessionId E
  (at2, pd2)

/-- The pending record `createPhase1 baseState bareInput` computes. -/
def createdPending : PendingCreate :=
  { sessionId := sid, cwd := "/app", cols := 120, rows := 30,
    authMode := AuthMode.m2m, auth := auth1,
    spawnEnv := applyAuthModeToEnv ambient1 auth1 }

/-- The state after `createPhase1 baseState bareInput` (auth-state file
persisted, map untouched). -/
def createdM1 : ManagerState :=
  { baseState with files := [auth1.stateFilePath] }

/-- Concrete gateway socket over the backpressure threshold. -/
def slowWs : WsState :=
  { readyState := WsReadyState.open, bufferedAmount := 2000000,
    sentFrames := ["frame-0"], closeCode := none }

/-- Lookup after insert-or-replace finds the inserted value. -/
theorem alistGet_alistSet_self {α : Type} (l : List (String × α)) (k : String)
    (v : α) : alistGet (alistSet l k v) k = some v := by
  induction l with
  | nil => simp [alistSet, alistGet]
  | cons hd tl ih =>
      by_cases h : hd.1 == k
      · simp [alistSet, h, alistGet]
      · simpa [alistSet, h, alistGet] using ih

/-- Lookup after insert-or-replace at a different key is unchanged. -/
theorem alistGet_alistSet_ne {α : Type} (l : List (String × α)) (k k2 : String)
    (v : α) (h : ¬ k = k2) : alistGet (alistSet l k v) k2 = alistGet l k2 := by
  induction l with
  | nil => simp [alistSet, alistGet, h]
  | cons hd tl ih =>
      by_cases hh : hd.1 == k
      · have hk : hd.1 = k := by simpa using hh
        simp [alistSet, hh, alistGet, h, hk]
      · simp only [alistSet, hh, if_false, alistGet]
        by_cases h2 : hd.1 == k2
        · simp [h2]
        · simpa [h2] using ih

/-- A key absent from the key list is not found. -/
theorem alistGet_eq_none_of_not_mem {α : Type} (l : List (String × α))
    (k : String) (h : k ∉ l.map Prod.fst) : alistGet l k = none := by
  induction l with
  | nil => rfl
  | cons hd tl ih =>
      simp only [List.map_cons, List.mem_cons] at h
      push_neg at h
      have hne : ¬ (hd.1 == k) = true := by
        simp [Ne.symm h.1]
      simp only [alistGet, hne, if_false]
      exact ih h.2

/-- After erasing a key from a map with unique keys, lookup fails. -/
theorem alistGet_alistErase_self {α : Type} (l : List (String × α))
    (k : String) (h : (l.map Prod.fst).Nodup) :
    alistGet (alistErase l k) k = none := by
  induction l with
  | nil => rfl
  | cons hd tl ih =>
      simp only [List.map_cons, List.nodup_cons] at h
      by_cases hh : hd.1 == k
      · have : hd.1 = k := by simpa using hh
        simp only [alistErase, hh, if_true]
        exact alistGet_eq_none_of_not_mem tl k (this ▸ h.1)
      · simp only [alistErase, hh, if_false, alistGet, hh]
        exact ih h.2

/-- Unfolding of a successful `getSession`. -/
theorem getSession_ok {m : ManagerState} {s : String} {r : SessionRecord}
    (h : getSession m s = .ok r) :
    validSessionId s = true ∧ alistGet m.sessions s = some r := by
  by_cases hv : validSessionId s
  · refine ⟨hv, ?_⟩
    cases hg : alistGet m.sessions s with
    | none => simp [getSession, hv, hg] at h
    | some r2 =>
        simp only [getSession, hv, Bool.not_true, Bool.false_eq_true,
          if_false, hg] at h
        cases h
        rfl
  · simp [getSession, hv] at h

/-- A removed file path is no longer present. -/
theorem not_mem_removeFile (l : List String) (p : String) :
    p ∉ removeFile l p := by
  simp [removeFile, List.mem_filter]

/-- Inversion of a successful first `createSession` phase: the three
guards passed and the pending record and post-state are the computed
ones. -/
theorem createPhase1_ok {m : ManagerState} {input : CreateSessionInput}
    {p : PendingCreate} {m1 : ManagerState}
    (h : createPhase1 m input = (.ok p, m1)) :
    validSessionId input.sessionId = true ∧
    alistGet m.sessions input.sessionId = none ∧
    m.sessions.length < m.opts.maxSessions ∧
    p.sessionId = input.sessionId ∧
    p.cols = clamp (jsOrNum input.cols m.opts.defaultCols) 20 m.opts.maxCols ∧
    p.rows = clamp (jsOrNum input.rows m.opts.defaultRows) 10 m.opts.maxRows ∧
    p.authMode = input.authMode.getD AuthMode.m2m ∧
    p.auth =
      { mode := input.authMode.getD AuthMode.m2m,
        userAccessToken := input.userAccessToken,
        databricksHost := input.databricksHost,
        userAccessTokenHeader := input.userAccessTokenHeader,
        originalDatabricksHost := (mergeEnv m.ambientEnv input).host,
        originalDatabricksClientId := (mergeEnv m.ambientEnv input).clientId,
        originalDatabricksClientSecret := (mergeEnv m.ambientEnv input).clientSecret,
        stateFilePath := m.opts.authStateDir ++ "/" ++ input.sessionId ++ ".env" } ∧
    m1 = { m with files := addFile m.files p.auth.stateFilePath } := by
  by_cases hv : validSessionId input.sessionId
  · by_cases hdup : (alistGet m.sessions input.sessionId).isSome
    · simp [createPhase1, hv, hdup] at h
    · by_cases hcap : m.sessions.length ≥ m.opts.maxSessions
      · simp [createPhase1, hv, hdup, hcap] at h
      · simp only [createPhase1, hv, Bool.not_true, Bool.false_eq_true,
          if_false, hdup, hcap] at h
        obtain ⟨hp, hm1⟩ := Prod.mk.injEq .. |>.mp h
        cases hp
        refine ⟨hv, ?_, by omega, rfl, rfl, rfl, rfl, rfl, ?_⟩
        · exact Option.not_isSome_iff_eq_none.mp hdup
        · exact hm1.symm
  · simp [createPhase1, hv] at h

/-- `s.slice(-n)` keeps the whole string when it is no longer than `n`. -/
theorem sliceNeg_of_le (s : String) (n : Nat) (h : s.data.length ≤ n) :
    sliceNeg s n = s := by
  unfold sliceNeg
  by_cases h0 : n = 0
  · simp [h0]
  · have hz : s.length - n = 0 := by
      have : s.length = s.data.length := rfl
      omega
    simp [h0, hz]

/-- Fan-out to clients none of which carries the given id produces no
data event for that id. -/
theorem filter_fanout_ne (cs : List Client) (cid : String) (d : String)
    (h : cid ∉ cs.map Client.id) :
    (cs.map (fun c => Event.data c.id d)).filter (isDataFor cid) = [] := by
  induction cs with
  | nil => rfl
  | cons hd tl ih =>
      simp only [List.map_cons, List.mem_cons] at h
      push_neg at h
      have hne : isDataFor cid (Event.data hd.id d) = false := by
        simp [isDataFor, Ne.symm h.1]
      simp only [List.map_cons, List.filter_cons, hne, Bool.false_eq_true,
        if_false]
      exact ih h.2

/-- Filtering clients cannot introduce a client id. -/
theorem not_mem_map_filter (cs : List Client) (cid : String)
    (p : Client → Bool) (h : cid ∉ cs.map Client.id) :
    cid ∉ (cs.filter p).map Client.id := by
  intro hmem
  apply h
  simp only [List.mem_map] at hmem ⊢
  obtain ⟨c, hc, hid⟩ := hmem
  exact ⟨c, List.mem_of_mem_filter hc, hid⟩

/-- After removing every client with a given id, that id is gone. -/
theorem not_mem_map_filter_self (cs : List Client) (cid : String) :
    cid ∉ (cs.filter (fun c => !(c.id == cid))).map Client.id := by
  intro hmem
  simp only [List.mem_map] at hmem
  obtain ⟨c, hc, hid⟩ := hmem
  have hcf := List.of_mem_filter hc
  simp [hid] at hcf

/-- C3: the spec requires that two interleaved `createSession` calls for
the same id can never both pass the duplicate-id check and both spawn a
PTY.  The code violates this: `createSession` suspends on
`await this.persistAuthState(auth)` between the duplicate-id check and
the map insertion, so the interleaving A-phase1, B-phase1, A-phase2,
B-phase2 lets both calls pass the check and spawns two PTYs for the one
id. -/
theorem createSession_race_double_spawn :
    raceInterleaving = (true, true, [sid, sid]) ∧
    (raceInterleaving.2.2.count sid = 2) := by decide

/-- C8: for an active session, `writeInput` fails with `INPUT_TOO_LARGE`
exactly when the UTF-8 byte length of the data strictly exceeds
`maxInputBytes` (an exact-maximum write succeeds), and on rejection the
manager state — including every PTY's written-byte log — is completely
unchanged. -/
theorem writeInput_size_check (m : ManagerState) (sessionId : String)
    (r : SessionRecord) (data : String)
    (h : getSession m sessionId = .ok r) :
    (data.utf8ByteSize > m.opts.maxInputBytes →
      (writeInput m sessionId data).res =
        .error { status := 413, code := "INPUT_TOO_LARGE", retryable := false } ∧
      (writeInput m sessionId data).state = m) ∧
    (data.utf8ByteSize ≤ m.opts.maxInputBytes →
      (writeInput m sessionId data).res = .ok () ∧
      alistGet (writeInput m sessionId data).state.sessions sessionId =
        some { r with ptyWritten := r.ptyWritten ++ [data] }) := by
  constructor
  · intro hgt
    simp [writeInput, h, hgt]
  · intro hle
    have hngt : ¬ data.utf8ByteSize > m.opts.maxInputBytes := by omega
    simp [writeInput, h, hngt, alistGet_alistSet_self]

/-- Witness for `writeInput_size_check` on a concrete manager with a
4-byte input ceiling: a 5-byte write is rejected, a 4-byte write is
accepted. -/
theorem writeInput_size_check_witness :
    ("12345".utf8ByteSize > oneSessionState.opts.maxInputBytes ∧
      (writeInput oneSessionState sid "12345").res =
        .error { status := 413, code := "INPUT_TOO_LARGE", retryable := false }) ∧
    ("1234".utf8ByteSize ≤ oneSessionState.opts.maxInputBytes ∧
      (writeInput oneSessionState sid "1234").res = .ok ()) := by
  have h : getSession oneSessionState sid = .ok record1 := by decide
  exact ⟨⟨by decide, ((writeInput_size_check _ _ _ _ h).1 (by decide)).1⟩,
    ⟨by decide, ((writeInput_size_check _ _ _ _ h).2 (by decide)).1⟩⟩

/-- C9: `send` never enqueues a frame on a socket whose buffered byte
count strictly exceeds the backpressure threshold; on an open such socket
it closes with the distinct close code 1009 / "client-too-slow", and
every subsequent `send` on the closed socket leaves it untouched, so no
further frames are ever sent. -/
theorem wsSend_backpressure (ws : WsState) (payload : String) (thr : Nat)
    (hover : ws.bufferedAmount > thr) :
    (wsSend ws payload thr).sentFrames = ws.sentFrames ∧
    (ws.readyState = WsReadyState.open →
      (wsSend ws payload thr).closeCode = some (1009, "client-too-slow") ∧
      (wsSend ws payload thr).readyState = WsReadyState.closing ∧
      ∀ q thr2, wsSend (wsSend ws payload thr) q thr2 = wsSend ws payload thr) := by
  by_cases hopen : ws.readyState = WsReadyState.open
  · refine ⟨?_, fun _ => ⟨?_, ?_, fun q thr2 => ?_⟩⟩ <;>
      simp [wsSend, hopen, hover]
  · exact ⟨by simp [wsSend, hopen], fun hc => absurd hc hopen⟩

/-- Witness for `wsSend_backpressure` on a concrete over-threshold open
socket. -/
theorem wsSend_backpressure_witness :
    slowWs.bufferedAmount > 1000000 ∧
    (wsSend slowWs "frame-1" 1000000).sentFrames = slowWs.sentFrames ∧
    (wsSend slowWs "frame-1" 1000000).closeCode =
      some (1009, "client-too-slow") ∧
    wsSend (wsSend slowWs "frame-1" 1000000) "frame-2" 1000000 =
      wsSend slowWs "frame-1" 1000000 := by
  have h := wsSend_backpressure slowWs "frame-1" 1000000 (by decide)
  exact ⟨by decide, h.1, (h.2 (by decide)).1, (h.2 (by decide)).2.2 _ _⟩

/-- C5: for an active session, any `resizeSession` stores cols and rows
clamped into the `[20, maxCols]` and `[10, maxRows]` bounds, both updated
in the same synchronous step (one record holds both new values); in
particular `resizeSession(id, 1, 1)` stores the minimum 20 × 10, not 1,
and `resizeSession(id, 100000, 100000)` stores the configured maximum. -/
theorem resizeSession_clamps (m : ManagerState) (sessionId : String)
    (r : SessionRecord) (h : getSession m sessionId = .ok r)
    (hC : 20 ≤ m.opts.maxCols) (hR : 10 ≤ m.opts.maxRows)
    (hC2 : m.opts.maxCols ≤ 100000) (hR2 : m.opts.maxRows ≤ 100000) :
    (∀ cols rows, ∃ r2,
      alistGet (resizeSession m sessionId cols rows).state.sessions sessionId =
        some r2 ∧
      r2.info.cols = clamp cols 20 m.opts.maxCols ∧
      r2.info.rows = clamp rows 10 m.opts.maxRows ∧
      r2.ptyCols = r2.info.cols ∧ r2.ptyRows = r2.info.rows ∧
      20 ≤ r2.info.cols ∧ r2.info.cols ≤ m.opts.maxCols ∧
      10 ≤ r2.info.rows ∧ r2.info.rows ≤ m.opts.maxRows) ∧
    (∃ r2,
      alistGet (resizeSession m sessionId 1 1).state.sessions sessionId =
        some r2 ∧ r2.info.cols = 20 ∧ r2.info.rows = 10) ∧
    (∃ r2,
      alistGet
          (resizeSession m sessionId 100000 100000).state.sessions sessionId =
        some r2 ∧
      r2.info.cols = m.opts.maxCols ∧ r2.info.rows = m.opts.maxRows) := by
  have key : ∀ cols rows, ∃ r2,
      alistGet (resizeSession m sessionId cols rows).state.sessions sessionId =
        some r2 ∧
      r2.info.cols = clamp cols 20 m.opts.maxCols ∧
      r2.info.rows = clamp rows 10 m.opts.maxRows ∧
      r2.ptyCols = r2.info.cols ∧ r2.ptyRows = r2.info.rows := by
    intro cols rows
    refine ⟨{ r with
                ptyCols := clamp cols 20 m.opts.maxCols,
                ptyRows := clamp rows 10 m.opts.maxRows,
                info := { r.info with
                            cols := clamp cols 20 m.opts.maxCols,
                            rows := clamp rows 10 m.opts.maxRows } },
      ?_, rfl, rfl, rfl, rfl⟩
    simp [resizeSession, h, alistGet_alistSet_self]
  refine ⟨?_, ?_, ?_⟩
  · intro cols rows
    obtain ⟨r2, hget, hc, hr, hpc, hpr⟩ := key cols rows
    refine ⟨r2, hget, hc, hr, hpc, hpr, ?_, ?_, ?_, ?_⟩ <;>
      simp only [hc, hr, clamp] <;> omega
  · obtain ⟨r2, hget, hc, hr, _, _⟩ := key 1 1
    refine ⟨r2, hget, ?_, ?_⟩ <;> simp only [hc, hr, clamp] <;> omega
  · obtain ⟨r2, hget, hc, hr, _, _⟩ := key 100000 100000
    refine ⟨r2, hget, ?_, ?_⟩ <;> simp only [hc, hr, clamp] <;> omega

/-- Witness for `resizeSession_clamps` on a concrete manager with maximum
geometry 400 × 200. -/
theorem resizeSession_clamps_witness :
    (∃ r2,
      alistGet (resizeSession oneSessionState sid 1 1).state.sessions sid =
        some r2 ∧ r2.info.cols = 20 ∧ r2.info.rows = 10) ∧
    (∃ r2,
      alistGet
          (resizeSession oneSessionState sid 100000 100000).state.sessions sid =
        some r2 ∧
      r2.info.cols = oneSessionState.opts.maxCols ∧
      r2.info.rows = oneSessionState.opts.maxRows) := by
  have h := resizeSession_clamps oneSessionState sid record1 (by decide)
    (by decide) (by decide) (by decide) (by decide)
  exact ⟨h.2.1, h.2.2⟩

/-- C7: when the PTY spawn primitive fails, `createSession` rolls back the
auth-state file it persisted before the spawn, fails with
`SESSION_SPAWN_FAILED` marked retryable, and leaves the active-session
map exactly as it was. -/
theorem createSession_spawn_failure_rollback (m : ManagerState)
    (input : CreateSessionInput) (p : PendingCreate) (m1 : ManagerState)
    (h1 : createPhase1 m input = (.ok p, m1)) :
    (createSession m input false).1 =
      .error { status := 500, code := "SESSION_SPAWN_FAILED", retryable := true } ∧
    (createSession m input false).2.sessions = m.sessions ∧
    p.auth.stateFilePath ∉ (createSession m input false).2.files := by
  obtain ⟨-, -, -, -, -, -, -, -, hm1⟩ := createPhase1_ok h1
  have hrun : createSession m input false =
      (.error { status := 500, code := "SESSION_SPAWN_FAILED", retryable := true },
        { m1 with files := removeFile m1.files p.auth.stateFilePath }) := by
    simp [createSession, h1, createPhase2]
  refine ⟨by simp [hrun], ?_, ?_⟩
  · simp [hrun, hm1]
  · simp only [hrun]
    exact not_mem_removeFile _ _

/-- Witness for `createSession_spawn_failure_rollback` on a concrete
empty manager. -/
theorem createSession_spawn_failure_rollback_witness :
    (createSession baseState bareInput false).1 =
      .error { status := 500, code := "SESSION_SPAWN_FAILED", retryable := true } ∧
    (createSession baseState bareInput false).2.sessions =
      baseState.sessions := by
  have h := createSession_spawn_failure_rollback baseState bareInput
    { sessionId := sid, cwd := "/app", cols := 120, rows := 30,
      authMode := AuthMode.m2m, auth := auth1,
      spawnEnv := applyAuthModeToEnv ambient1 auth1 }
    { baseState with files := [auth1.stateFilePath] } (by decide)
  exact ⟨h.1, h.2.1⟩

/-- C10: a `createSession` call supplying `cols = 0` (or `rows = 0`)
behaves as if the value were absent: `input.cols || defaultCols`
substitutes the configured default before clamping, so the stored
geometry is the clamped default, not the minimum that clamping 0 would
produce. -/
theorem createSession_zero_geometry_default (m : ManagerState)
    (input : CreateSessionInput) (hcols : input.cols = some 0)
    (hrows : input.rows = some 0) (i : SessionInfo) (m2 : ManagerState)
    (h : createSession m input true = (.ok i, m2)) :
    i.cols = clamp m.opts.defaultCols 20 m.opts.maxCols ∧
    i.rows = clamp m.opts.defaultRows 10 m.opts.maxRows ∧
    (20 < m.opts.defaultCols → m.opts.defaultCols ≤ m.opts.maxCols →
      i.cols = m.opts.defaultCols ∧ i.cols ≠ clamp 0 20 m.opts.maxCols) ∧
    (10 < m.opts.defaultRows → m.opts.defaultRows ≤ m.opts.maxRows →
      i.rows = m.opts.defaultRows ∧ i.rows ≠ clamp 0 10 m.opts.maxRows) := by
  rcases hp : createPhase1 m input with ⟨res, m1⟩
  cases res with
  | error e =>
      rw [createSession, hp] at h
      cases h
  | ok p =>
      rw [createSession, hp] at h
      obtain ⟨-, -, -, -, hcols2, hrows2, -, -, -⟩ := createPhase1_ok hp
      simp only [createPhase2, Bool.not_true, Bool.false_eq_true, if_false,
        if_neg] at h
      obtain ⟨hi, -⟩ := Prod.mk.injEq .. |>.mp h
      have hi2 := Except.ok.injEq .. |>.mp hi
      have hic : i.cols = clamp m.opts.defaultCols 20 m.opts.maxCols := by
        rw [← hi2]
        simpa [hcols, jsOrNum] using hcols2
      have hir : i.rows = clamp m.opts.defaultRows 10 m.opts.maxRows := by
        rw [← hi2]
        simpa [hrows, jsOrNum] using hrows2
      refine ⟨hic, hir, ?_, ?_⟩
      · intro h1 h2
        constructor
        · rw [hic]; simp only [clamp]; omega
        · rw [hic]; simp only [clamp]; omega
      · intro h1 h2
        constructor
        · rw [hir]; simp only [clamp]; omega
        · rw [hir]; simp only [clamp]; omega

/-- Witness for `createSession_zero_geometry_default`: with defaults
120 × 30 and maxima 400 × 200, a create call passing `cols = 0, rows = 0`
stores 120 × 30, not the 20 × 10 a clamp of zero would give. -/
theorem createSession_zero_geometry_default_witness :
    ∃ i m2, createSession baseState
        { bareInput with cols := some 0, rows := some 0 } true = (.ok i, m2) ∧
      i.cols = 120 ∧ i.rows = 30 ∧
      i.cols ≠ clamp 0 20 baseState.opts.maxCols ∧
      i.rows ≠ clamp 0 10 baseState.opts.maxRows := by
  refine ⟨(createSession baseState
      { bareInput with cols := some 0, rows := some 0 } true).1.toOption.get
        (by decide),
    (createSession baseState
      { bareInput with cols := some 0, rows := some 0 } true).2, by decide, ?_⟩
  have h := createSession_zero_geometry_default baseState
    { bareInput with cols := some 0, rows := some 0 } rfl rfl
    ((createSession baseState
      { bareInput with cols := some 0, rows := some 0 } true).1.toOption.get
        (by decide))
    (createSession baseState
      { bareInput with cols := some 0, rows := some 0 } true).2 (by decide)
  refine ⟨by decide, by decide, ?_, ?_⟩
  · exact (h.2.2.1 (by decide) (by decide)).2
  · exact (h.2.2.2 (by decide) (by decide)).2

/-- C1 counterexample: on a session with no delegated host available from
any source, switching to user mode fails with `DATABRICKS_HOST_UNAVAILABLE`
whose retryable flag is `true` — not `false` as the claim states. -/
theorem setSessionAuthMode_host_retryable_counterexample :
    (setSessionAuthMode noHostState sid
      { mode := AuthMode.user, userAccessToken := some "tok",
        databricksHost := none, userAccessTokenHeader := none }).res =
      .error databricksHostUnavailableError ∧
    databricksHostUnavailableError.retryable = true ∧
    (setSessionAuthMode noHostState sid
      { mode := AuthMode.user, userAccessToken := some "tok",
        databricksHost := none, userAccessTokenHeader := none }).res ≠
      .error { status := 500, code := "DATABRICKS_HOST_UNAVAILABLE",
               retryable := false } := by decide

/-- C1 (amended): switching an active session to user mode resolves the
delegated host as the explicit argument, else the previously stored host,
else the session's captured original host; on success the resolved host
is stored, and when none of the three is truthy the call fails with
`DATABRICKS_HOST_UNAVAILABLE`, whose retryable flag is `true` (HTTP 500),
leaving the state unchanged. -/
theorem setSessionAuthMode_host_resolution (m : ManagerState)
    (sessionId : String) (r : SessionRecord)
    (input : SetSessionAuthModeInput)
    (h : getSession m sessionId = .ok r)
    (hmode : input.mode = AuthMode.user)
    (htok : truthy (jsOr input.userAccessToken r.auth.userAccessToken) = true) :
    (truthy (jsOr (jsOr input.databricksHost r.auth.databricksHost)
        r.auth.originalDatabricksHost) = true →
      (∃ i, (setSessionAuthMode m sessionId input).res = .ok i) ∧
      ∃ r2,
        alistGet (setSessionAuthMode m sessionId input).state.sessions
            sessionId = some r2 ∧
        r2.auth.databricksHost =
          jsOr (jsOr input.databricksHost r.auth.databricksHost)
            r.auth.originalDatabricksHost) ∧
    (truthy (jsOr (jsOr input.databricksHost r.auth.databricksHost)
        r.auth.originalDatabricksHost) = false →
      (setSessionAuthMode m sessionId input).res =
        .error databricksHostUnavailableError ∧
      databricksHostUnavailableError.retryable = true ∧
      (setSessionAuthMode m sessionId input).state = m) ∧
    (truthy input.databricksHost = true →
      jsOr (jsOr input.databricksHost r.auth.databricksHost)
        r.auth.originalDatabricksHost = input.databricksHost) ∧
    (truthy input.databricksHost = false →
      truthy r.auth.databricksHost = true →
      jsOr (jsOr input.databricksHost r.auth.databricksHost)
        r.auth.originalDatabricksHost = r.auth.databricksHost) ∧
    (truthy input.databricksHost = false →
      truthy r.auth.databricksHost = false →
      jsOr (jsOr input.databricksHost r.auth.databricksHost)
        r.auth.originalDatabricksHost = r.auth.originalDatabricksHost) := by
  refine ⟨?_, ?_, ?_, ?_, ?_⟩
  · intro hhost
    constructor
    · refine ⟨{ r.info with authMode := AuthMode.user }, ?_⟩
      simp [setSessionAuthMode, h, hmode, htok, hhost]
    · refine ⟨{ r with
                  auth := { r.auth with
                              mode := AuthMode.user,
                              userAccessToken :=
                                jsOr input.userAccessToken r.auth.userAccessToken,
                              databricksHost :=
                                jsOr (jsOr input.databricksHost
                                  r.auth.databricksHost)
                                  r.auth.originalDatabricksHost,
                              userAccessTokenHeader :=
                                jsOr input.userAccessTokenHeader
                                  r.auth.userAccessTokenHeader },
                  info := { r.info with authMode := AuthMode.user } },
        ?_, rfl⟩
      simp only [setSessionAuthMode, h, hmode, htok, hhost, Bool.not_true,
        Bool.false_eq_true, if_false]
      exact alistGet_alistSet_self ..
  · intro hhost
    refine ⟨?_, rfl, ?_⟩ <;>
      simp [setSessionAuthMode, h, hmode, htok, hhost]
  · intro hh
    simp [jsOr, hh]
  · intro hh hh2
    simp [jsOr, hh, hh2]
  · intro hh hh2
    simp [jsOr, hh, hh2]

/-- Witness for `setSessionAuthMode_host_resolution` at a session lacking
all three host sources: the failure branch fires with a retryable
error. -/
theorem setSessionAuthMode_host_resolution_witness :
    (setSessionAuthMode noHostState sid
      { mode := AuthMode.user, userAccessToken := some "tok2",
        databricksHost := none, userAccessTokenHeader := none }).res =
      .error databricksHostUnavailableError ∧
    databricksHostUnavailableError.retryable = true := by
  have h := setSessionAuthMode_host_resolution noHostState sid
    { record1 with auth := authNoHost, clients := [clientA] }
    { mode := AuthMode.user, userAccessToken := some "tok2",
      databricksHost := none, userAccessTokenHeader := none }
    (by decide) rfl (by decide)
  exact ⟨(h.2.1 (by decide)).1, (h.2.1 (by decide)).2.1⟩

/-- C2 counterexample: `killSession` on a session with an attached client
succeeds but fires no exit callback at all during the call — the
synchronous synthetic exit notification the claim describes does not
happen. -/
theorem killSession_no_sync_exit_counterexample :
    (alistGet noHostState.sessions sid).map SessionRecord.clients =
      some [clientA] ∧
    (killSession noHostState sid).res = .ok () ∧
    (killSession noHostState sid).events = [] := by decide

/-- C2 (amended): `killSession` on an active session removes it from the
map and deletes its auth-state file, after which `writeInput` on the same
id fails `SESSION_NOT_FOUND`; it fires no exit callbacks itself — the
attached clients are notified by the PTY exit handler (which holds the
session record in its closure) once the killed process exits. -/
theorem killSession_teardown (m : ManagerState) (sessionId : String)
    (r : SessionRecord) (h : getSession m sessionId = .ok r)
    (hnodup : (m.sessions.map Prod.fst).Nodup) (data : String)
    (exitCode : Int) (signal : Option Int) :
    (killSession m sessionId).res = .ok () ∧
    (killSession m sessionId).events = [] ∧
    alistGet (killSession m sessionId).state.sessions sessionId = none ∧
    r.auth.stateFilePath ∉ (killSession m sessionId).state.files ∧
    (writeInput (killSession m sessionId).state sessionId data).res =
      .error sessionNotFoundError ∧
    (ptyExitStep (killSession m sessionId).state r sessionId exitCode
        signal).2 =
      r.clients.map (fun c => Event.exit c.id exitCode signal) := by
  obtain ⟨hv, hget⟩ := getSession_ok h
  have hkill : killSession m sessionId =
      ⟨.ok (),
        { m with
          sessions := alistErase m.sessions sessionId,
          files := removeFile m.files r.auth.stateFilePath }, []⟩ := by
    simp [killSession, h]
  have herase : alistGet (alistErase m.sessions sessionId) sessionId = none :=
    alistGet_alistErase_self m.sessions sessionId hnodup
  refine ⟨by simp [hkill], by simp [hkill], by simp [hkill, herase], ?_, ?_, ?_⟩
  · simp only [hkill]
    exact not_mem_removeFile _ _
  · simp [hkill, writeInput, getSession, hv, herase]
  · simp [hkill, ptyExitStep]

/-- Witness for `killSession_teardown` on a concrete session with one
attached client. -/
theorem killSession_teardown_witness :
    (killSession noHostState sid).res = .ok () ∧
    (killSession noHostState sid).events = [] ∧
    alistGet (killSession noHostState sid).state.sessions sid = none ∧
    (writeInput (killSession noHostState sid).state sid "ls").res =
      .error sessionNotFoundError ∧
    (ptyExitStep (killSession noHostState sid).state
        { record1 with auth := authNoHost, clients := [clientA] } sid 0
        none).2 =
      [Event.exit clientA.id 0 none] := by
  have h := killSession_teardown noHostState sid
    { record1 with auth := authNoHost, clients := [clientA] }
    (by decide) (by decide) "ls" 0 none
  exact ⟨h.1, h.2.1, h.2.2.1, h.2.2.2.2.1, by
    rw [h.2.2.2.2.2]
    decide⟩

/-- C4: for a session created by `createSession`, switching to user mode
with an explicit token and host and then back to m2m yields session info
with `authMode = m2m`, an auth state whose machine-credential environment
values (host, client id, client secret) produced by `applyAuthModeToEnv`
equal the ambient values captured at session creation — not the user-mode
values — and the user token stays cached so a later switch back to user
mode without an explicit token succeeds. -/
theorem authMode_round_trip_restores (m : ManagerState)
    (input : CreateSessionInput) (p : PendingCreate) (m1 : ManagerState)
    (h1 : createPhase1 m input = (.ok p, m1)) (tok host2 : String)
    (htok : ¬ tok = "") (hhost : ¬ host2 = "") (env : Env) :
    (∃ i1,
      (authRoundTrip (createPhase2 m1 p true).2 input.sessionId tok
          host2).1.res = .ok i1 ∧ i1.authMode = AuthMode.user) ∧
    (∃ i2,
      (authRoundTrip (createPhase2 m1 p true).2 input.sessionId tok
          host2).2.1.res = .ok i2 ∧ i2.authMode = AuthMode.m2m) ∧
    (∃ r2,
      alistGet
          (authRoundTrip (createPhase2 m1 p true).2 input.sessionId tok
            host2).2.1.state.sessions input.sessionId = some r2 ∧
      r2.info.authMode = AuthMode.m2m ∧
      r2.auth.userAccessToken = some tok ∧
      (applyAuthModeToEnv env r2.auth).host =
        (mergeEnv m.ambientEnv input).host ∧
      (applyAuthModeToEnv env r2.auth).clientId =
        (mergeEnv m.ambientEnv input).clientId ∧
      (applyAuthModeToEnv env r2.auth).clientSecret =
        (mergeEnv m.ambientEnv input).clientSecret) ∧
    (∃ i3,
      (authRoundTrip (createPhase2 m1 p true).2 input.sessionId tok
          host2).2.2.res = .ok i3 ∧ i3.authMode = AuthMode.user) := by
  obtain ⟨hv, hnone, hcap, hsid, hcols, hrows, hmode, hauth, hm1⟩ :=
    createPhase1_ok h1
  obtain ⟨psid, pcwd, pcols, prows, pmode, pauth, penv⟩ := p
  simp only at hsid hauth
  subst hsid
  subst hauth
  have htok2 : (tok == "") = false := by
    simpa using htok
  have hhost2 : (host2 == "") = false := by
    simpa using hhost
  simp [authRoundTrip, createPhase2, setSessionAuthMode, getSession, hv,
    alistGet_alistSet_self, truthy, jsOr, htok2, hhost2, applyAuthModeToEnv]

/-- Witness for `authMode_round_trip_restores` on a concretely created
session under `ambient1` machine credentials. -/
theorem authMode_round_trip_restores_witness :
    (∃ i2,
      (authRoundTrip (createPhase2 createdM1 createdPending true).2 sid "tok"
          "https://user.example").2.1.res = .ok i2 ∧
        i2.authMode = AuthMode.m2m) ∧
    (∃ r2,
      alistGet
          (authRoundTrip (createPhase2 createdM1 createdPending true).2 sid
            "tok" "https://user.example").2.1.state.sessions sid = some r2 ∧
      r2.info.authMode = AuthMode.m2m ∧
      r2.auth.userAccessToken = some "tok" ∧
      (applyAuthModeToEnv ambient1 r2.auth).host =
        (mergeEnv baseState.ambientEnv bareInput).host ∧
      (applyAuthModeToEnv ambient1 r2.auth).clientId =
        (mergeEnv baseState.ambientEnv bareInput).clientId ∧
      (applyAuthModeToEnv ambient1 r2.auth).clientSecret =
        (mergeEnv baseState.ambientEnv bareInput).clientSecret) ∧
    (∃ i3,
      (authRoundTrip (createPhase2 createdM1 createdPending true).2 sid "tok"
          "https://user.example").2.2.res = .ok i3 ∧
        i3.authMode = AuthMode.user) := by
  have h := authMode_round_trip_restores baseState bareInput createdPending
    createdM1 (by decide) "tok" "https://user.example" (by decide) (by decide)
    ambient1
  exact ⟨h.2.1, h.2.2.1, h.2.2.2⟩

/-- C6: attaching to a session with non-empty history delivers the whole
buffered history exactly once, as the first event of the attach call
itself (synchronously with registration, hence before any later PTY
data); and in the spec's scenario — attach A, PTY output D, detach A,
attach B, PTY output E — client B's first received payload equals D, B
receives the live output E exactly once, and the detached A receives
nothing. -/
theorem attach_replay_then_stream (m : ManagerState) (sessionId : String)
    (r : SessionRecord) (h : getSession m sessionId = .ok r)
    (cA cB : Client) (D E : String) (hD : ¬ D = "")
    (hHist : r.history = "")
    (hlen : D.data.length ≤ m.opts.maxHistoryChars)
    (hBA : ¬ cB.id = cA.id) (hBr : cB.id ∉ r.clients.map Client.id) :
    (∀ (m2 : ManagerState) (s2 : String) (r2 : SessionRecord) (c : Client),
      getSession m2 s2 = .ok r2 → ¬ r2.history = "" →
      (attachSession m2 s2 c).events.head? =
        some (Event.data c.id r2.history) ∧
      (attachSession m2 s2 c).events.filter (isDataFor c.id) =
        [Event.data c.id r2.history]) ∧
    (replayScenario m sessionId cA cB D E).1.events.head? =
      some (Event.data cB.id D) ∧
    (replayScenario m sessionId cA cB D E).1.events.filter (isDataFor cB.id) =
      [Event.data cB.id D] ∧
    (replayScenario m sessionId cA cB D E).2.2.filter (isDataFor cB.id) =
      [Event.data cB.id E] ∧
    (replayScenario m sessionId cA cB D E).2.2.filter (isDataFor cA.id) =
      [] := by
  have hgeneral : ∀ (m2 : ManagerState) (s2 : String) (r2 : SessionRecord)
      (c : Client), getSession m2 s2 = .ok r2 → ¬ r2.history = "" →
      (attachSession m2 s2 c).events.head? =
        some (Event.data c.id r2.history) ∧
      (attachSession m2 s2 c).events.filter (isDataFor c.id) =
        [Event.data c.id r2.history] := by
    intro m2 s2 r2 c hg hh
    have hne : (r2.history == "") = false := by simpa using hh
    cases hc : c.hasAuthMode <;>
      simp [attachSession, hg, hne, isDataFor, hc]
  obtain ⟨hv, hget⟩ := getSession_ok h
  have hDb : (D == "") = false := by simpa using hD
  have hBAb : (cB.id == cA.id) = false := by simpa using hBA
  have hist2 : sliceNeg D m.opts.maxHistoryChars = D :=
    sliceNeg_of_le D _ hlen
  have hf1 := filter_fanout_ne
    (r.clients.filter (fun c => !(c.id == cA.id))) cB.id E
    (not_mem_map_filter r.clients cB.id _ hBr)
  have hf2 := filter_fanout_ne
    (r.clients.filter (fun c => !(c.id == cA.id))) cA.id E
    (not_mem_map_filter_self r.clients cA.id)
  refine ⟨hgeneral, ?_⟩
  cases hcb : cB.hasAuthMode <;>
    simp [replayScenario, attachSession, ptyDataStep, detachClient,
      getSession, hv, hget, alistGet_alistSet_self, hHist, hist2, hDb, hBAb,
      hcb, isDataFor, hf1, hf2, hD]

/-- Witness for `attach_replay_then_stream` on a concrete fresh session:
B's replayed first payload is "x" and the live "y" arrives exactly
once. -/
theorem attach_replay_then_stream_witness :
    (replayScenario oneSessionState sid clientA clientB "x" "y").1.events.head? =
      some (Event.data clientB.id "x") ∧
    (replayScenario oneSessionState sid clientA clientB "x"
        "y").1.events.filter (isDataFor clientB.id) =
      [Event.data clientB.id "x"] ∧
    (replayScenario oneSessionState sid clientA clientB "x"
        "y").2.2.filter (isDataFor clientB.id) =
      [Event.data clientB.id "y"] ∧
    (replayScenario oneSessionState sid clientA clientB "x"
        "y").2.2.filter (isDataFor clientA.id) = [] := by
  have h := attach_replay_then_stream oneSessionState sid record1 (by decide)
    clientA clientB "x" "y" (by decide) (by decide) (by decide) (by decide)
    (by decide)
  exact h.2

end DbxTerminal
